import Mathlib

/-!
# Serenity Echo Server — verification of the journal ingestion and persistence flow

Shallow embedding of the TypeScript sources:

* `src/index.ts` — HTTP handlers (`isValidWebMData`, `handleJournalEntry`,
  the `/journal/new` and `/journal/:id/append` handlers, `/journal/latest-or-new`);
* `src/services/openai.service.ts` — `transcribeAudio`, `summarizeText`;
* `src/services/firebase.service.ts` — the Firestore-backed journal store
  (`createNewJournalEntry`, `appendToJournalEntry`, `getJournalEntries`,
  `getJournalEntry`, `getLatestJournalEntry`).

Modelling conventions:

* Node `Buffer`s are `List Nat` (byte values).
* JavaScript object fields that may be `undefined` are `Option _`.
* External calls (OpenAI transcription / chat completion, Firestore fetches
  and writes) are oracles passed in as explicit arguments: an `ApiResult`
  value for the OpenAI calls, `Bool` success flags for Firestore I/O.
  A JS function that can throw is embedded as `Except String _`; a JS
  function that catches internally and returns a value is total.
* Firestore's server-assigned `createdAt` timestamps are a `Nat` counter
  on the store state, incremented on every write, so creation order and
  `createdAt` order coincide (as they do for a single serial client).
* `new Date().toISOString()` values are opaque `String` parameters (`now`).
-/

namespace SerenityEcho

/-! ## Buffer.from(data, "base64") — Node's lenient base64 decoder

Node's base64 decoding of a JS string never throws: it skips characters
outside the (standard or URL-safe) base64 alphabet, stops at `=` padding,
and drops a dangling trailing sextet.  We model exactly that. -/

/-- Value of one base64 alphabet character (standard and URL-safe), as
Node's decoder accepts; `none` for characters the decoder skips. -/
def base64CharVal (c : Char) : Option Nat :=
  if 65 ≤ c.toNat ∧ c.toNat ≤ 90 then some (c.toNat - 65)
  else if 97 ≤ c.toNat ∧ c.toNat ≤ 122 then some (c.toNat - 97 + 26)
  else if 48 ≤ c.toNat ∧ c.toNat ≤ 57 then some (c.toNat - 48 + 52)
  else if c = '+' ∨ c = '-' then some 62
  else if c = '/' ∨ c = '_' then some 63
  else none

/-- The sextet stream of a string: valid alphabet characters before the
first `=` padding character. -/
def base64Sextets (s : String) : List Nat :=
  (s.data.takeWhile (fun c => c ≠ '=')).filterMap base64CharVal

/-- Pack 6-bit groups into bytes: each full quad yields 3 bytes, a trailing
pair yields 1 byte, a trailing triple 2 bytes, a dangling single sextet
is dropped. -/
def sextetsToBytes : List Nat → List Nat
  | a :: b :: c :: d :: rest =>
      (a * 4 + b / 16) :: ((b % 16) * 16 + c / 4) :: ((c % 4) * 64 + d) :: sextetsToBytes rest
  | [a, b] => [a * 4 + b / 16]
  | [a, b, c] => [a * 4 + b / 16, (b % 16) * 16 + c / 4]
  | _ => []

/-- `Buffer.from(s, "base64")` as a byte list. Total: Node's base64 path
never throws on a string input. -/
def base64Decode (s : String) : List Nat :=
  sextetsToBytes (base64Sextets s)

/-- JS strict equality `buffer[i] === n` where `buffer[i]` may be
`undefined` (out of bounds): `undefined === n` is `false`. -/
def jsByteEq (b : Option Nat) (n : Nat) : Bool :=
  match b with
  | some v => v == n
  | none => false

/-- `isValidWebMData` (src/index.ts lines 53-69): decode base64 and compare
the first four bytes with the EBML signature `1A 45 DF A3`; out-of-bounds
reads are `undefined` and compare unequal.  The surrounding `try/catch`
(returning `false`) is dead for string inputs, since Node's base64 decode
does not throw; the function is total here. -/
def isValidWebMData (data : String) : Bool :=
  let buffer := base64Decode data
  jsByteEq buffer[0]? 0x1a && jsByteEq buffer[1]? 0x45 &&
    jsByteEq buffer[2]? 0xdf && jsByteEq buffer[3]? 0xa3

/-! ## Claim C4 -/

/-- **C4.** `isValidWebMData` never raises (it is a total function of the
input string) and returns `true` exactly when the base64-decoded bytes
number at least 4 and begin with `1A 45 DF A3`; on every other input —
including strings decoding to fewer than 4 bytes — it returns `false`. -/
theorem isValidWebMData_true_iff (s : String) :
    isValidWebMData s = true ↔
      4 ≤ (base64Decode s).length ∧
        (base64Decode s).take 4 = [0x1a, 0x45, 0xdf, 0xa3] := by
  unfold isValidWebMData
  rcases h : base64Decode s with _ | ⟨b0, _ | ⟨b1, _ | ⟨b2, _ | ⟨b3, rest⟩⟩⟩⟩ <;>
    simp [jsByteEq]
  omega

/-- Witness for C4 at concrete inputs: the base64 encoding of
`1A 45 DF A3` validates, and a 4-byte non-WebM payload does not. -/
theorem isValidWebMData_witness :
    isValidWebMData "GkXfow==" = true ∧ isValidWebMData "AAAAAA==" = false := by
  constructor
  · exact (isValidWebMData_true_iff "GkXfow==").mpr (by decide)
  · have h := isValidWebMData_true_iff "AAAAAA=="
    revert h
    decide

/-! ## Journal store (src/services/firebase.service.ts)

The Firestore collection `journal_entries` is a list of documents.  Each
document's data is a JS object; current-format documents carry an
`entries` array, legacy documents (written by the pre-`entries` version of
the service, whose `JournalEntryData` had required flat `transcription`
and `audioLength` fields) carry the flat fields and no `entries` key.
Optional JS fields are `Option _`. -/

/-- Free-form client metadata: an opaque string-keyed map, never inspected
by the core logic. -/
abbrev Metadata := List (String × String)

/-- One element of a document's `entries` array, as written by
`createNewJournalEntry` / `appendToJournalEntry`: `timestamp`,
`transcription` and `audioLength` always present, `summary` and
`metadata` possibly absent. -/
structure EntryItem where
  timestamp : String
  transcription : String
  summary : Option String
  audioLength : Nat
  metadata : Option Metadata
deriving DecidableEq, Repr

/-- The argument of `createNewJournalEntry` and `appendToJournalEntry`:
`Omit<JournalEntryData["entries"][0], "timestamp">`. -/
structure NewEntryData where
  transcription : String
  summary : Option String
  audioLength : Nat
  metadata : Option Metadata
deriving DecidableEq, Repr

/-- Raw document data as stored in Firestore.  `entries` is `none` for
legacy flat documents, in which case the flat fields hold the data;
documents written by the current `createNewJournalEntry` have
`entries = some _` and no flat fields. -/
structure StoredDoc where
  timestamp : String
  entries : Option (List EntryItem)
  transcription : Option String
  summary : Option String
  audioLength : Option Nat
  metadata : Option Metadata
deriving DecidableEq, Repr

/-- A document of the collection: Firestore id, server-assigned
`createdAt`, and its data. -/
structure FireDoc where
  id : Nat
  createdAt : Nat
  data : StoredDoc
deriving DecidableEq, Repr

/-- The state of the `journal_entries` collection: its documents (in
insertion order), a fresh-id source, and the server clock used for
`FieldValue.serverTimestamp()`. -/
structure Firestore where
  docs : List FireDoc
  nextId : Nat
  time : Nat
deriving DecidableEq, Repr

/-- Well-formedness maintained by the store operations: every document was
assigned its id and `createdAt` before the current counters. -/
def Firestore.wf (st : Firestore) : Bool :=
  st.docs.all (fun d => d.createdAt < st.time && d.id < st.nextId)

/-- `FieldValue.arrayUnion(x)` applied to an array: Firestore adds the
element only when no deeply-equal element is already present; otherwise
the array is unchanged. -/
def arrayUnion (xs : List EntryItem) (x : EntryItem) : List EntryItem :=
  if x ∈ xs then xs else xs ++ [x]

/-- The item object `\x7b timestamp, ...data \x7d` built by both
`createNewJournalEntry` and `appendToJournalEntry`. -/
def mkItem (now : String) (data : NewEntryData) : EntryItem :=
  { timestamp := now, transcription := data.transcription,
    summary := data.summary, audioLength := data.audioLength,
    metadata := data.metadata }

/-- `createNewJournalEntry(data)` (firebase.service.ts lines 39-64): build
a document whose `entries` array holds the single item
`\x7b timestamp, ...data \x7d`, `add` it with a server `createdAt`, return the
new id.  A failing underlying write (`writeOk = false`) is rethrown to
the caller. -/
def createNewJournalEntry (now : String) (writeOk : Bool) (data : NewEntryData)
    (st : Firestore) : Except String (Nat × Firestore) :=
  if writeOk then
    let doc : StoredDoc :=
      { timestamp := now, entries := some [mkItem now data], transcription := none,
        summary := none, audioLength := none, metadata := none }
    .ok (st.nextId,
      { docs := st.docs ++ [{ id := st.nextId, createdAt := st.time, data := doc }],
        nextId := st.nextId + 1, time := st.time + 1 })
  else
    .error "store write failed"

/-- `appendToJournalEntry(journalId, data)` (firebase.service.ts lines
66-91): fetch the document; when it does not exist, throw
`Journal entry with ID ... not found` (rethrown by the catch block);
otherwise `update` the document's `entries` field with
`arrayUnion(\x7b timestamp, ...data \x7d)`. -/
def appendToJournalEntry (now : String) (journalId : Nat) (data : NewEntryData)
    (st : Firestore) : Except String Firestore :=
  match st.docs.find? (fun d => d.id == journalId) with
  | none => .error ("Journal entry with ID " ++ toString journalId ++ " not found")
  | some _ =>
    .ok { st with
      docs := st.docs.map (fun d =>
        if d.id == journalId then
          { d with data := { d.data with
              entries := some (arrayUnion (d.data.entries.getD []) (mkItem now data)) } }
        else d) }

/-- Result shape of the store's read operations: the JS object
`\x7b id: doc.id, ...doc.data() \x7d`.  Which of `entries` / flat fields are
present depends on the stored document's shape: the spread copies the
stored fields verbatim. -/
structure JournalEntryData where
  id : Nat
  timestamp : String
  entries : Option (List EntryItem)
  transcription : Option String
  summary : Option String
  audioLength : Option Nat
  metadata : Option Metadata
deriving DecidableEq, Repr

/-- `\x7b id: doc.id, ...doc.data() \x7d` — the object spread used by
`getJournalEntry` and `getJournalEntries` (no legacy normalization). -/
def spreadDoc (d : FireDoc) : JournalEntryData :=
  { id := d.id, timestamp := d.data.timestamp, entries := d.data.entries,
    transcription := d.data.transcription, summary := d.data.summary,
    audioLength := d.data.audioLength, metadata := d.data.metadata }

/-- Insert into a list kept sorted by `createdAt` descending. -/
def insertByCreatedDesc (d : FireDoc) : List FireDoc → List FireDoc
  | [] => [d]
  | x :: xs =>
    if x.createdAt ≤ d.createdAt then d :: x :: xs
    else x :: insertByCreatedDesc d xs

/-- The query `orderBy("createdAt", "desc")`: sort the collection by
`createdAt` descending (insertion sort; store-written documents have
pairwise distinct `createdAt`, so tie order is immaterial). -/
def sortByCreatedDesc (l : List FireDoc) : List FireDoc :=
  l.foldr insertByCreatedDesc []

/-- `getJournalEntries()` (firebase.service.ts lines 93-108): order by
`createdAt` descending, limit 50, and spread each document.  A failing
fetch is rethrown. -/
def getJournalEntries (fetchOk : Bool) (st : Firestore) :
    Except String (List JournalEntryData) :=
  if fetchOk then
    .ok (((sortByCreatedDesc st.docs).take 50).map spreadDoc)
  else
    .error "store fetch failed"

/-- `getJournalEntry(id)` (firebase.service.ts lines 110-132): fetch by id,
`null` when missing, otherwise the spread `\x7b id, ...data \x7d`.  The catch
block turns a failing fetch into `null` as well. -/
def getJournalEntry (fetchOk : Bool) (id : Nat) (st : Firestore) :
    Option JournalEntryData :=
  if fetchOk then
    match st.docs.find? (fun d => d.id == id) with
    | none => none
    | some d => some (spreadDoc d)
  else
    none

/-- One step of scanning for the document with the greatest `createdAt`. -/
def latestStep (acc : Option FireDoc) (d : FireDoc) : Option FireDoc :=
  match acc with
  | none => some d
  | some m => if m.createdAt < d.createdAt then some d else some m

/-- `orderBy("createdAt", "desc").limit(1)`: the document with the greatest
`createdAt` (the collection's docs have pairwise distinct `createdAt`
under `Firestore.wf`-preserving histories). -/
def latestDoc (st : Firestore) : Option FireDoc :=
  st.docs.foldl latestStep none

/-- `getLatestJournalEntry()` (firebase.service.ts lines 134-180): `null`
on an empty collection and on a failing fetch (the catch block returns
`null` instead of throwing).  A legacy document — `data.entries` absent —
is normalized into a one-item `entries` array built from the flat fields;
a current document is spread unchanged.  The `getD` defaults are
unreachable for store-written legacy documents, whose flat
`transcription` / `audioLength` fields were required at write time. -/
def getLatestJournalEntry (fetchOk : Bool) (st : Firestore) :
    Option JournalEntryData :=
  if fetchOk then
    match latestDoc st with
    | none => none
    | some d =>
      match d.data.entries with
      | none =>
        some { id := d.id, timestamp := d.data.timestamp,
               entries := some [{ timestamp := d.data.timestamp,
                                  transcription := d.data.transcription.getD "",
                                  summary := d.data.summary,
                                  audioLength := d.data.audioLength.getD 0,
                                  metadata := d.data.metadata }],
               transcription := none, summary := none, audioLength := none,
               metadata := none }
      | some _ => some (spreadDoc d)
  else
    none

/-! ## Transcription client (src/services/openai.service.ts)

The two OpenAI calls are oracles: `ApiResult String` for the Whisper
transcription (its `text` field), `ApiResult (Option String)` for the chat
completion (`response.choices[0]?.message?.content`, which may be null). -/

/-- Outcome of one external API call: a value, or a thrown error
message. -/
inductive ApiResult (α : Type) where
  | ok (val : α)
  | err (msg : String)
deriving DecidableEq, Repr

/-- `TranscriptionResult` (openai.service.ts lines 14-20): all fields but
`text` may be absent. -/
structure TranscriptionResult where
  text : String
  duration : Option Nat
  language : Option String
  error : Option String
  summary : Option String
deriving DecidableEq, Repr

/-- `summarizeText(text)` (openai.service.ts lines 22-46): call the chat
completion; a missing or empty `content` falls back (via JS `||`) to
`"- No summary generated"`; a failing call is rethrown. The `text`
argument only feeds the prompt, so it does not appear here. -/
def summarizeText (chatApi : ApiResult (Option String)) : Except String String :=
  match chatApi with
  | .err e => .error e
  | .ok content =>
    .ok (match content with
      | some c => if c = "" then "- No summary generated" else c
      | none => "- No summary generated")

/-- `transcribeAudio(audioBuffer)` (openai.service.ts lines 48-91): on a
failed transcription call, catch and return `text = ""` with the error
message — never rethrow.  On success, when the text is truthy
(non-empty), attempt `summarizeText`, swallowing its failure (`summary`
stays absent); return text, `duration = audioBuffer.length`,
`language = "en"`. -/
def transcribeAudio (audioBuffer : List Nat) (whisperApi : ApiResult String)
    (chatApi : ApiResult (Option String)) : TranscriptionResult :=
  match whisperApi with
  | .err e =>
    { text := "", duration := none, language := none, error := some e,
      summary := none }
  | .ok txt =>
    let summary : Option String :=
      if txt = "" then none
      else
        match summarizeText chatApi with
        | .ok s => some s
        | .error _ => none
    { text := txt, duration := some audioBuffer.length, language := some "en",
      error := none, summary := summary }

/-! ## HTTP handlers (src/index.ts)

A request body is `\x7b audioData?, metadata? \x7d`; a response is the status
code together with the JSON fields the handlers actually set. -/

/-- `req.body` for the journal POST routes. -/
structure RequestBody where
  audioData : Option String
  metadata : Option Metadata
deriving DecidableEq, Repr

/-- An HTTP response: status code plus the fields of `ApiResponse`
(`error` is the short label, `message` the human-readable detail), and
`record` for the GET routes that send a `JournalEntryData` as the body. -/
structure HttpResponse where
  status : Nat
  success : Option Bool
  message : String
  timestamp : Option String
  metadata : Option Metadata
  format : Option String
  error : Option String
  transcription : Option TranscriptionResult
  journalId : Option Nat
  record : Option JournalEntryData
deriving DecidableEq, Repr

/-- A response carrying only `error` and `message`, as sent by
`res.status(code).json(\x7b error, message \x7d)`. -/
def errorResponse (code : Nat) (label msg : String) : HttpResponse :=
  { status := code, success := none, message := msg, timestamp := none,
    metadata := none, format := none, error := some label,
    transcription := none, journalId := none, record := none }

/-- The 400 response of the missing-audio branch. -/
def missingAudioResponse : HttpResponse :=
  errorResponse 400 "Missing audio data" "Audio data is required"

/-- The 400 response of the invalid-format branch. -/
def invalidFormatResponse : HttpResponse :=
  errorResponse 400 "Invalid audio format"
    "Audio data must be in WebM format (base64 encoded)"

/-- The 500 response of the catch-all handlers. -/
def internalErrorResponse (msg : String) : HttpResponse :=
  errorResponse 500 "Internal Server Error" msg

/-- JS truthiness of `audioData` (`if (!audioData)`): absent and empty
string are falsy. -/
def strTruthy (s : Option String) : Bool :=
  match s with
  | none => false
  | some v => v ≠ ""

/-- `handleJournalEntry` (src/index.ts lines 102-179), registered at
`POST /journal`: 400 on falsy `audioData`; 400 on failed WebM check;
otherwise transcribe (never throws), `createNewJournalEntry`, and answer
200 with the transcription result and new id.  The catch block maps a
thrown store-write error to 500, leaving the store unchanged. -/
def handleJournalEntry (now : String) (whisperApi : ApiResult String)
    (chatApi : ApiResult (Option String)) (writeOk : Bool)
    (body : RequestBody) (st : Firestore) : HttpResponse × Firestore :=
  if ¬ strTruthy body.audioData then
    (missingAudioResponse, st)
  else
    let audioData := body.audioData.getD ""
    if ¬ isValidWebMData audioData then
      (invalidFormatResponse, st)
    else
      let audioBuffer := base64Decode audioData
      let tr := transcribeAudio audioBuffer whisperApi chatApi
      match createNewJournalEntry now writeOk
          { transcription := tr.text, summary := tr.summary,
            audioLength := audioBuffer.length, metadata := body.metadata } st with
      | .error msg => (internalErrorResponse msg, st)
      | .ok (journalId, st') =>
        ({ status := 200, success := some true,
           message := "Journal entry received, transcribed, and saved successfully",
           timestamp := some now, metadata := body.metadata,
           format := some "webm", error := none, transcription := some tr,
           journalId := some journalId, record := none }, st')

/-- The `POST /journal/new` handler (src/index.ts lines 300-380): same
pipeline as `handleJournalEntry` up to the response message. -/
def handleJournalNew (now : String) (whisperApi : ApiResult String)
    (chatApi : ApiResult (Option String)) (writeOk : Bool)
    (body : RequestBody) (st : Firestore) : HttpResponse × Firestore :=
  if ¬ strTruthy body.audioData then
    (missingAudioResponse, st)
  else
    let audioData := body.audioData.getD ""
    if ¬ isValidWebMData audioData then
      (invalidFormatResponse, st)
    else
      let audioBuffer := base64Decode audioData
      let tr := transcribeAudio audioBuffer whisperApi chatApi
      match createNewJournalEntry now writeOk
          { transcription := tr.text, summary := tr.summary,
            audioLength := audioBuffer.length, metadata := body.metadata } st with
      | .error msg => (internalErrorResponse msg, st)
      | .ok (journalId, st') =>
        ({ status := 200, success := some true,
           message := "New journal entry created successfully",
           timestamp := some now, metadata := body.metadata,
           format := some "webm", error := none, transcription := some tr,
           journalId := some journalId, record := none }, st')

/-- The `POST /journal/:id/append` handler (src/index.ts lines 383-464):
same validation and transcription pipeline, then `appendToJournalEntry`;
any error it throws — including the not-found error — is caught and
answered with 500, leaving the store unchanged.  On success, 200 echoing
`journalId = id`. -/
def handleJournalAppend (now : String) (whisperApi : ApiResult String)
    (chatApi : ApiResult (Option String)) (id : Nat)
    (body : RequestBody) (st : Firestore) : HttpResponse × Firestore :=
  if ¬ strTruthy body.audioData then
    (missingAudioResponse, st)
  else
    let audioData := body.audioData.getD ""
    if ¬ isValidWebMData audioData then
      (invalidFormatResponse, st)
    else
      let audioBuffer := base64Decode audioData
      let tr := transcribeAudio audioBuffer whisperApi chatApi
      match appendToJournalEntry now id
          { transcription := tr.text, summary := tr.summary,
            audioLength := audioBuffer.length, metadata := body.metadata } st with
      | .error msg => (internalErrorResponse msg, st)
      | .ok st' =>
        ({ status := 200, success := some true,
           message := "Successfully appended to journal entry",
           timestamp := some now, metadata := body.metadata,
           format := some "webm", error := none, transcription := some tr,
           journalId := some id, record := none }, st')

/-- A 200 response whose JSON body is a journal record (`res.json(entry)`). -/
def recordResponse (entry : JournalEntryData) : HttpResponse :=
  { status := 200, success := none, message := "", timestamp := none,
    metadata := none, format := none, error := none, transcription := none,
    journalId := none, record := some entry }

/-- The `GET /journal/latest-or-new` handler (src/index.ts lines 219-267):
fetch the latest entry; when absent, create the empty placeholder
(`transcription = ""`, `audioLength = 0`, `metadata = \x7b type: "journal" \x7d`),
re-fetch it by the returned id, and fail with 500 when the create throws
or the re-fetch comes back empty; answer 200 with the entry otherwise.
`latestOk` / `getOk` / `writeOk` are the success flags of the three
Firestore calls involved. -/
def latestOrNew (now : String) (latestOk getOk writeOk : Bool)
    (st : Firestore) : HttpResponse × Firestore :=
  match getLatestJournalEntry latestOk st with
  | some entry => (recordResponse entry, st)
  | none =>
    match createNewJournalEntry now writeOk
        { transcription := "", summary := none, audioLength := 0,
          metadata := some [("type", "journal")] } st with
    | .error msg => (internalErrorResponse msg, st)
    | .ok (journalId, st') =>
      match getJournalEntry getOk journalId st' with
      | none =>
        (internalErrorResponse "Failed to create and retrieve new journal entry",
         st')
      | some entry => (recordResponse entry, st')

/-! ## Helper lemmas -/

/-- A validated payload is in particular a non-empty string (the empty
string decodes to no bytes). -/
theorem isValidWebMData_ne_empty {s : String} (h : isValidWebMData s = true) :
    s ≠ "" := by
  intro he
  subst he
  exact absurd h (by decide)

/-! ## Claim C10 -/

/-- **C10.** A request whose `audioData` field is present but equal to the
empty string takes the missing-audio branch of each of the three POST
handlers (`/journal`, `/journal/new`, `/journal/:id/append`): the response
is HTTP 400 with error `"Missing audio data"` — not the invalid-format
branch — the store state is returned unchanged, and the result does not
depend on the transcription or summarization oracles (no external call)
nor on the store-write flag (no write). -/
theorem emptyAudioData_hits_missing_branch
    (now : String) (whisperApi : ApiResult String)
    (chatApi : ApiResult (Option String)) (writeOk : Bool) (id : Nat)
    (body : RequestBody) (st : Firestore)
    (h : body.audioData = some "") :
    handleJournalEntry now whisperApi chatApi writeOk body st =
      (missingAudioResponse, st)
    ∧ handleJournalNew now whisperApi chatApi writeOk body st =
      (missingAudioResponse, st)
    ∧ handleJournalAppend now whisperApi chatApi id body st =
      (missingAudioResponse, st) := by
  refine ⟨?_, ?_, ?_⟩ <;>
    simp [handleJournalEntry, handleJournalNew, handleJournalAppend, strTruthy, h]

/-- Witness for C10: a concrete request with `audioData = ""` against a
concrete store. -/
theorem emptyAudioData_witness :
    handleJournalEntry "t" (.ok "hi") (.ok none) true
      { audioData := some "", metadata := none }
      { docs := [], nextId := 0, time := 0 } =
      (missingAudioResponse, { docs := [], nextId := 0, time := 0 }) :=
  (emptyAudioData_hits_missing_branch "t" (.ok "hi") (.ok none) true 0
    { audioData := some "", metadata := none }
    { docs := [], nextId := 0, time := 0 } rfl).1

/-! ## Claim C9 -/

/-- **C9.** Summarization is sequenced after transcription and attempted
only on non-empty transcript text: when the transcript is empty, the
result does not depend on the chat oracle and `summary` is absent; when
the transcription call itself failed, the result likewise does not
depend on the chat oracle.  And when the transcript is non-empty but the
summarization call fails, `transcribeAudio` still returns successfully
with the transcript text present, `summary` absent and no error — the
summarization failure is invisible to the caller. -/
theorem summarization_only_after_nonempty_transcription
    (buf : List Nat) (txt e : String)
    (chatApi chatApi' : ApiResult (Option String)) :
    (txt = "" →
      transcribeAudio buf (.ok txt) chatApi = transcribeAudio buf (.ok txt) chatApi'
      ∧ (transcribeAudio buf (.ok txt) chatApi).summary = none)
    ∧ (txt ≠ "" →
      transcribeAudio buf (.ok txt) (.err e) =
        { text := txt, duration := some buf.length, language := some "en",
          error := none, summary := none })
    ∧ transcribeAudio buf (.err e) chatApi = transcribeAudio buf (.err e) chatApi' := by
  refine ⟨fun h => ?_, fun h => ?_, ?_⟩
  · simp [transcribeAudio, summarizeText, h]
  · simp [transcribeAudio, summarizeText, h]
  · simp [transcribeAudio, summarizeText]

/-- Witness for C9: a non-empty transcript with a failing summarization
call still yields a successful result with no summary. -/
theorem summarization_failure_witness :
    transcribeAudio [26, 69] (.ok "hello world") (.err "rate limited") =
      { text := "hello world", duration := some 2, language := some "en",
        error := none, summary := none } :=
  (summarization_only_after_nonempty_transcription [26, 69] "hello world"
    "rate limited" (.ok none) (.ok none)).2.1 (by decide)

/-! ## Claim C1 -/

/-- **C1.** For a `POST /journal` request with a present, format-valid
`audioData` whose transcription call fails: `transcribeAudio` does not
raise but returns empty `text` with a populated `error`; the handler
still creates a journal record whose single entry has
`transcription = ""`, and responds HTTP 200 — not 500 — with
`transcription.error` populated in the success payload. -/
theorem transcriptionFailure_still_creates_and_200
    (now s e : String) (chatApi : ApiResult (Option String))
    (body : RequestBody) (st : Firestore)
    (hbody : body.audioData = some s)
    (hvalid : isValidWebMData s = true) :
    transcribeAudio (base64Decode s) (.err e) chatApi =
      { text := "", duration := none, language := none, error := some e,
        summary := none }
    ∧ handleJournalEntry now (.err e) chatApi true body st =
      ({ status := 200, success := some true,
         message := "Journal entry received, transcribed, and saved successfully",
         timestamp := some now, metadata := body.metadata, format := some "webm",
         error := none,
         transcription := some { text := "", duration := none, language := none,
                                 error := some e, summary := none },
         journalId := some st.nextId, record := none },
       { docs := st.docs ++
           [{ id := st.nextId, createdAt := st.time,
              data := { timestamp := now,
                        entries := some [{ timestamp := now, transcription := "",
                                           summary := none,
                                           audioLength := (base64Decode s).length,
                                           metadata := body.metadata }],
                        transcription := none, summary := none,
                        audioLength := none, metadata := none } }],
         nextId := st.nextId + 1, time := st.time + 1 }) := by
  have hs : s ≠ "" := isValidWebMData_ne_empty hvalid
  constructor
  · simp [transcribeAudio]
  · simp [handleJournalEntry, strTruthy, hbody, hs, hvalid, transcribeAudio,
      createNewJournalEntry, mkItem]

/-- Witness for C1: a concrete valid WebM payload with a failing
transcription service is stored with an empty transcription and answered
with HTTP 200 carrying the error message. -/
theorem transcriptionFailure_witness :
    (handleJournalEntry "t" (.err "whisper down") (.ok none) true
      { audioData := some "GkXfow==", metadata := none }
      { docs := [], nextId := 0, time := 0 }).1.status = 200 ∧
    (handleJournalEntry "t" (.err "whisper down") (.ok none) true
      { audioData := some "GkXfow==", metadata := none }
      { docs := [], nextId := 0, time := 0 }).1.transcription =
      some { text := "", duration := none, language := none,
             error := some "whisper down", summary := none } := by
  have h := transcriptionFailure_still_creates_and_200 "t" "GkXfow=="
    "whisper down" (.ok none)
    { audioData := some "GkXfow==", metadata := none }
    { docs := [], nextId := 0, time := 0 } rfl (by decide)
  rw [h.2]
  exact ⟨rfl, rfl⟩

/-! ## Claim C5 -/

/-- **C5.** Creating a journal entry and then fetching the record by the
returned id yields a record whose `entries` holds exactly one item whose
transcription, summary, audioLength and metadata equal the submitted
values (and whose timestamp is the creation timestamp). -/
theorem create_then_get_single_matching_item
    (now : String) (d : NewEntryData) (st : Firestore)
    (hwf : st.wf = true) :
    ∀ id st', createNewJournalEntry now true d st = .ok (id, st') →
      getJournalEntry true id st' =
        some { id := id, timestamp := now,
               entries := some [{ timestamp := now,
                                  transcription := d.transcription,
                                  summary := d.summary,
                                  audioLength := d.audioLength,
                                  metadata := d.metadata }],
               transcription := none, summary := none, audioLength := none,
               metadata := none } := by
  intro id st' hcreate
  have hids : ∀ x ∈ st.docs, x.id < st.nextId := by
    intro x hx
    have := List.all_eq_true.mp hwf x hx
    simp only [Bool.and_eq_true, decide_eq_true_eq] at this
    exact this.2
  simp [createNewJournalEntry] at hcreate
  obtain ⟨hid, hst⟩ := hcreate
  subst hid
  subst hst
  have hnone : st.docs.find? (fun x => x.id == st.nextId) = none := by
    rw [List.find?_eq_none]
    intro x hx
    have := hids x hx
    simp only [beq_iff_eq]
    omega
  simp [getJournalEntry, List.find?_append, hnone, spreadDoc, mkItem]

/-- Witness for C5 at a concrete store and submission. -/
theorem create_then_get_witness :
    getJournalEntry true 4
      (match createNewJournalEntry "t1" true
          { transcription := "fine day", summary := some "- fine",
            audioLength := 6, metadata := some [("type", "test")] }
          { docs := [], nextId := 4, time := 9 } with
        | .ok p => p.2
        | .error _ => { docs := [], nextId := 0, time := 0 }) =
      some { id := 4, timestamp := "t1",
             entries := some [{ timestamp := "t1", transcription := "fine day",
                                summary := some "- fine", audioLength := 6,
                                metadata := some [("type", "test")] }],
             transcription := none, summary := none, audioLength := none,
             metadata := none } :=
  create_then_get_single_matching_item "t1"
    { transcription := "fine day", summary := some "- fine",
      audioLength := 6, metadata := some [("type", "test")] }
    { docs := [], nextId := 4, time := 9 } (by decide) 4 _ rfl

/-! ## Claim C6 -/

/-- **C6.** Appending to an id that references no existing record throws
the not-found error without touching the store (the update is never
reached, so no record is created or modified), and the
`POST /journal/:id/append` route catches the propagated error and maps
it to HTTP 500, returning the store unchanged. -/
theorem append_missing_id_errors_and_500
    (now s : String) (id : Nat) (d : NewEntryData)
    (whisperApi : ApiResult String) (chatApi : ApiResult (Option String))
    (body : RequestBody) (st : Firestore)
    (hmiss : st.docs.find? (fun x => x.id == id) = none)
    (hbody : body.audioData = some s)
    (hvalid : isValidWebMData s = true) :
    appendToJournalEntry now id d st =
      .error ("Journal entry with ID " ++ toString id ++ " not found")
    ∧ handleJournalAppend now whisperApi chatApi id body st =
      (internalErrorResponse
        ("Journal entry with ID " ++ toString id ++ " not found"), st) := by
  have hs : s ≠ "" := isValidWebMData_ne_empty hvalid
  constructor
  · simp [appendToJournalEntry, hmiss]
  · simp [handleJournalAppend, strTruthy, hbody, hs, hvalid,
      appendToJournalEntry, hmiss]

/-- Witness for C6: appending to id 3 of an empty store. -/
theorem append_missing_id_witness :
    handleJournalAppend "t" (.ok "hi") (.ok none) 3
      { audioData := some "GkXfow==", metadata := none }
      { docs := [], nextId := 0, time := 0 } =
      (internalErrorResponse "Journal entry with ID 3 not found",
       { docs := [], nextId := 0, time := 0 }) :=
  (append_missing_id_errors_and_500 "t" "GkXfow==" 3
    { transcription := "x", summary := none, audioLength := 0, metadata := none }
    (.ok "hi") (.ok none)
    { audioData := some "GkXfow==", metadata := none }
    { docs := [], nextId := 0, time := 0 } rfl rfl (by decide)).2

/-! ## Claim C7 -/

/-- **C7.** On an empty store, `GET /journal/latest-or-new` creates exactly
one placeholder record — `transcription = ""`, `audioLength = 0`,
`metadata = [("type", "journal")]` — and returns it with HTTP 200; a
second call on the resulting store performs no write (the store is
returned unchanged) and returns the same latest record. -/
theorem latestOrNew_idempotent_after_first
    (now now2 : String) (st : Firestore) (h : st.docs = []) :
    latestOrNew now true true true st =
      (recordResponse
        { id := st.nextId, timestamp := now,
          entries := some [{ timestamp := now, transcription := "",
                             summary := none, audioLength := 0,
                             metadata := some [("type", "journal")] }],
          transcription := none, summary := none, audioLength := none,
          metadata := none },
       { docs := [{ id := st.nextId, createdAt := st.time,
                    data := { timestamp := now,
                              entries := some [{ timestamp := now,
                                                 transcription := "",
                                                 summary := none,
                                                 audioLength := 0,
                                                 metadata := some [("type", "journal")] }],
                              transcription := none, summary := none,
                              audioLength := none, metadata := none } }],
         nextId := st.nextId + 1, time := st.time + 1 })
    ∧ latestOrNew now2 true true true (latestOrNew now true true true st).2 =
      ((latestOrNew now true true true st).1,
       (latestOrNew now true true true st).2) := by
  have h1 : latestOrNew now true true true st =
      (recordResponse
        { id := st.nextId, timestamp := now,
          entries := some [{ timestamp := now, transcription := "",
                             summary := none, audioLength := 0,
                             metadata := some [("type", "journal")] }],
          transcription := none, summary := none, audioLength := none,
          metadata := none },
       { docs := [{ id := st.nextId, createdAt := st.time,
                    data := { timestamp := now,
                              entries := some [{ timestamp := now,
                                                 transcription := "",
                                                 summary := none,
                                                 audioLength := 0,
                                                 metadata := some [("type", "journal")] }],
                              transcription := none, summary := none,
                              audioLength := none, metadata := none } }],
         nextId := st.nextId + 1, time := st.time + 1 }) := by
    simp [latestOrNew, getLatestJournalEntry, latestDoc, h, createNewJournalEntry,
      mkItem, getJournalEntry, spreadDoc]
  refine ⟨h1, ?_⟩
  rw [h1]
  simp [latestOrNew, getLatestJournalEntry, latestDoc, latestStep, spreadDoc,
    recordResponse]

/-- Witness for C7 on a concrete empty store. -/
theorem latestOrNew_witness :
    latestOrNew "t1" true true true { docs := [], nextId := 2, time := 5 } =
      (recordResponse
        { id := 2, timestamp := "t1",
          entries := some [{ timestamp := "t1", transcription := "",
                             summary := none, audioLength := 0,
                             metadata := some [("type", "journal")] }],
          transcription := none, summary := none, audioLength := none,
          metadata := none },
       { docs := [{ id := 2, createdAt := 5,
                    data := { timestamp := "t1",
                              entries := some [{ timestamp := "t1",
                                                 transcription := "",
                                                 summary := none,
                                                 audioLength := 0,
                                                 metadata := some [("type", "journal")] }],
                              transcription := none, summary := none,
                              audioLength := none, metadata := none } }],
         nextId := 3, time := 6 }) :=
  (latestOrNew_idempotent_after_first "t1" "t2"
    { docs := [], nextId := 2, time := 5 } rfl).1

/-! ## Claim C8 -/

/-- The scan for the maximal `createdAt` yields an element of the list,
unless it returns the accumulator unchanged. -/
theorem foldl_latestStep_mem :
    ∀ (l : List FireDoc) (acc : Option FireDoc) (m : FireDoc),
      l.foldl latestStep acc = some m → acc = some m ∨ m ∈ l := by
  intro l
  induction l with
  | nil => intro acc m h; exact .inl h
  | cons a l ih =>
    intro acc m h
    rcases ih (latestStep acc a) m h with h' | h'
    · rcases acc with _ | x
      · simp [latestStep] at h'
        subst h'
        exact .inr (List.mem_cons_self a l)
      · simp only [latestStep] at h'
        by_cases hlt : x.createdAt < a.createdAt
        · rw [if_pos hlt] at h'
          cases h'
          exact .inr (List.mem_cons_self a l)
        · rw [if_neg hlt] at h'
          exact .inl h'
    · exact .inr (List.mem_cons_of_mem a h')

/-- Scanning two further documents with strictly increasing `createdAt`,
both newer than everything in the collection, yields the second one. -/
theorem latestDoc_append_two (l : List FireDoc) (da db : FireDoc)
    (hl : ∀ x ∈ l, x.createdAt < da.createdAt)
    (hab : da.createdAt < db.createdAt) :
    latestStep (latestStep (l.foldl latestStep none) da) db = some db := by
  rcases hA : l.foldl latestStep none with _ | m
  · simp [latestStep, hab]
  · have hm : m ∈ l := by
      rcases foldl_latestStep_mem l none m hA with h' | h'
      · exact absurd h' (by simp)
      · exact h'
    simp [latestStep, hl m hm, hab]

/-- **C8.** `getLatestJournalEntry` never raises (it is total): it returns
the absent sentinel when the underlying fetch fails and when the
collection is empty; and on a well-formed store, after two successive
creations it returns the second created record (the one with the most
recent server-assigned `createdAt`), not the first. -/
theorem getLatest_absent_or_most_recent
    (st : Firestore) (d1 d2 : NewEntryData) (now1 now2 : String)
    (hwf : st.wf = true) :
    getLatestJournalEntry false st = none
    ∧ (st.docs = [] → getLatestJournalEntry true st = none)
    ∧ ∀ id1 st1 id2 st2,
        createNewJournalEntry now1 true d1 st = .ok (id1, st1) →
        createNewJournalEntry now2 true d2 st1 = .ok (id2, st2) →
        (getLatestJournalEntry true st2).map (fun r => r.id) = some id2
        ∧ id2 ≠ id1 := by
  refine ⟨rfl, ?_, ?_⟩
  · intro h
    simp [getLatestJournalEntry, latestDoc, h]
  · intro id1 st1 id2 st2 h1 h2
    have htimes : ∀ x ∈ st.docs, x.createdAt < st.time := by
      intro x hx
      have := List.all_eq_true.mp hwf x hx
      simp only [Bool.and_eq_true, decide_eq_true_eq] at this
      exact this.1
    simp [createNewJournalEntry] at h1
    obtain ⟨hid1, hst1⟩ := h1
    subst hid1
    subst hst1
    simp [createNewJournalEntry] at h2
    obtain ⟨hid2, hst2⟩ := h2
    subst hid2
    subst hst2
    have hmax := latestDoc_append_two st.docs
      { id := st.nextId, createdAt := st.time,
        data := { timestamp := now1, entries := some [mkItem now1 d1],
                  transcription := none, summary := none, audioLength := none,
                  metadata := none } }
      { id := st.nextId + 1, createdAt := st.time + 1,
        data := { timestamp := now2, entries := some [mkItem now2 d2],
                  transcription := none, summary := none, audioLength := none,
                  metadata := none } }
      htimes (Nat.lt_succ_self st.time)
    refine ⟨?_, by omega⟩
    unfold getLatestJournalEntry latestDoc
    rw [if_pos rfl]
    simp only [List.foldl_append, List.foldl_cons, List.foldl_nil]
    rw [hmax]
    simp [spreadDoc]

/-- Witness for C8: two creations on a concrete empty store; the latest
read returns the second id, 1. -/
theorem getLatest_witness :
    getLatestJournalEntry false { docs := [], nextId := 0, time := 0 } = none
    ∧ getLatestJournalEntry true { docs := [], nextId := 0, time := 0 } = none
    ∧ (getLatestJournalEntry true
        { docs := [{ id := 0, createdAt := 0,
                     data := { timestamp := "t1",
                               entries := some [{ timestamp := "t1",
                                                  transcription := "a",
                                                  summary := none,
                                                  audioLength := 1,
                                                  metadata := none }],
                               transcription := none, summary := none,
                               audioLength := none, metadata := none } },
                   { id := 1, createdAt := 1,
                     data := { timestamp := "t2",
                               entries := some [{ timestamp := "t2",
                                                  transcription := "b",
                                                  summary := none,
                                                  audioLength := 2,
                                                  metadata := none }],
                               transcription := none, summary := none,
                               audioLength := none, metadata := none } }],
          nextId := 2, time := 2 }).map (fun r => r.id) = some 1 := by
  have h := getLatest_absent_or_most_recent { docs := [], nextId := 0, time := 0 }
    { transcription := "a", summary := none, audioLength := 1, metadata := none }
    { transcription := "b", summary := none, audioLength := 2, metadata := none }
    "t1" "t2" (by decide)
  exact ⟨h.1, h.2.1 rfl, (h.2.2 0 _ 1 _ rfl rfl).1⟩

/-! ## Claim C2 -/

/-- The `entries` array of the record with the given id, as stored. -/
def docEntries (st : Firestore) (id : Nat) : Option (List EntryItem) :=
  (st.docs.find? (fun d => d.id == id)).bind (fun d => d.data.entries)

/-- Updating the documents matching an id does not disturb which document
`find?` locates, provided the update preserves ids. -/
theorem find?_map_update (l : List FireDoc) (id : Nat) (u : FireDoc → FireDoc)
    (hu : ∀ d, (u d).id = d.id) :
    (l.map (fun d => if d.id == id then u d else d)).find? (fun d => d.id == id)
      = (l.find? (fun d => d.id == id)).map
          (fun d => if d.id == id then u d else d) := by
  rw [List.find?_map]
  have hp : ((fun d => d.id == id) ∘ fun d : FireDoc => if d.id == id then u d else d)
      = fun d : FireDoc => d.id == id := by
    funext d
    by_cases h : d.id = id
    · simp [h, hu]
    · simp [h]
  rw [hp]

/-- A concrete store holding one record (id 0) whose `entries` array has a
single item, used to exhibit the array-union deduplication. -/
def exStoreC2 : Firestore :=
  { docs := [{ id := 0, createdAt := 0,
               data := { timestamp := "t0",
                         entries := some [{ timestamp := "t0",
                                            transcription := "first",
                                            summary := none, audioLength := 4,
                                            metadata := none }],
                         transcription := none, summary := none,
                         audioLength := none, metadata := none } }],
    nextId := 1, time := 1 }

/-- **C2, counterexample.** Performing the append operation twice on an
existing record with two identical submitted items (same handler
timestamp, same payload — as produced by two appends within the same
millisecond): both appends succeed, yet the `entries` sequence grows from
1 to 2, an increase of 1 and not of 2 — `FieldValue.arrayUnion`
deduplicates the second, deeply-equal item. -/
theorem append_twice_identical_counterexample :
    ((appendToJournalEntry "t1" 0
        { transcription := "hi", summary := none, audioLength := 3,
          metadata := none } exStoreC2).bind
      (appendToJournalEntry "t1" 0
        { transcription := "hi", summary := none, audioLength := 3,
          metadata := none })).map (fun st2 => (docEntries st2 0).map List.length)
      = .ok (some 2)
    ∧ (docEntries exStoreC2 0).map List.length = some 1
    ∧ (2 : Nat) ≠ 1 + 2 := by
  refine ⟨by rfl, by rfl, by decide⟩

/-- **C2, amended.** For every existing record id whose `entries` array is
present, appending two items that are distinct (as deeply-equal objects,
timestamps included) from every earlier element of the array and from
each other succeeds twice and yields an `entries` sequence extended by
exactly those two items, in submission order, after the pre-existing
items — so its length grows by exactly 2.  (The claim's original form
fails when an appended item is deeply equal to one already present:
`arrayUnion` deduplicates it, see the counterexample.) -/
theorem append_twice_distinct_adds_two
    (now1 now2 : String) (id : Nat) (d1 d2 : NewEntryData)
    (st : Firestore) (fd : FireDoc) (es : List EntryItem)
    (hfind : st.docs.find? (fun d => d.id == id) = some fd)
    (hes : fd.data.entries = some es)
    (h1 : mkItem now1 d1 ∉ es)
    (h2 : mkItem now2 d2 ∉ es ++ [mkItem now1 d1]) :
    ∀ st1 st2,
      appendToJournalEntry now1 id d1 st = .ok st1 →
      appendToJournalEntry now2 id d2 st1 = .ok st2 →
      docEntries st2 id = some (es ++ [mkItem now1 d1, mkItem now2 d2])
      ∧ (docEntries st2 id).map List.length = some (es.length + 2) := by
  intro st1 st2 ha1 ha2
  simp only [appendToJournalEntry, hfind] at ha1
  have hst1 : st1 = { st with docs := st.docs.map (fun d =>
      if d.id == id then
        { d with data := { d.data with
            entries := some (arrayUnion (d.data.entries.getD []) (mkItem now1 d1)) } }
      else d) } := by
    cases ha1
    rfl
  have hfind1 : st1.docs.find? (fun d => d.id == id) =
      some { fd with data := { fd.data with
        entries := some (arrayUnion (fd.data.entries.getD []) (mkItem now1 d1)) } } := by
    subst hst1
    rw [find?_map_update st.docs id
      (fun d => { d with data := { d.data with
        entries := some (arrayUnion (d.data.entries.getD []) (mkItem now1 d1)) } })
      (fun d => rfl)]
    rw [hfind]
    have hid : fd.id = id := by
      have := List.find?_some hfind
      simpa using this
    simp [hid]
  have hent1 : arrayUnion (fd.data.entries.getD []) (mkItem now1 d1) =
      es ++ [mkItem now1 d1] := by
    rw [hes]
    simp [arrayUnion, h1]
  simp only [appendToJournalEntry, hfind1] at ha2
  have hst2 : st2 = { st1 with docs := st1.docs.map (fun d =>
      if d.id == id then
        { d with data := { d.data with
            entries := some (arrayUnion (d.data.entries.getD []) (mkItem now2 d2)) } }
      else d) } := by
    cases ha2
    rfl
  have hfind2 : st2.docs.find? (fun d => d.id == id) =
      some { fd with data := { fd.data with
        entries := some (arrayUnion (es ++ [mkItem now1 d1]) (mkItem now2 d2)) } } := by
    subst hst2
    rw [find?_map_update st1.docs id
      (fun d => { d with data := { d.data with
        entries := some (arrayUnion (d.data.entries.getD []) (mkItem now2 d2)) } })
      (fun d => rfl)]
    rw [hfind1]
    have hid : fd.id = id := by
      have := List.find?_some hfind
      simpa using this
    simp [hid, hent1]
  have hent2 : arrayUnion (es ++ [mkItem now1 d1]) (mkItem now2 d2) =
      es ++ [mkItem now1 d1, mkItem now2 d2] := by
    simp [arrayUnion, h2]
  rw [docEntries, hfind2]
  simp [hent2]

/-- The store after appending a second, distinct item to `exStoreC2`. -/
def exStoreC2a : Firestore :=
  { docs := [{ id := 0, createdAt := 0,
               data := { timestamp := "t0",
                         entries := some [{ timestamp := "t0",
                                            transcription := "first",
                                            summary := none, audioLength := 4,
                                            metadata := none },
                                          { timestamp := "t1",
                                            transcription := "second",
                                            summary := none, audioLength := 3,
                                            metadata := none }],
                         transcription := none, summary := none,
                         audioLength := none, metadata := none } }],
    nextId := 1, time := 1 }

/-- The store after appending a third, distinct item to `exStoreC2a`. -/
def exStoreC2b : Firestore :=
  { docs := [{ id := 0, createdAt := 0,
               data := { timestamp := "t0",
                         entries := some [{ timestamp := "t0",
                                            transcription := "first",
                                            summary := none, audioLength := 4,
                                            metadata := none },
                                          { timestamp := "t1",
                                            transcription := "second",
                                            summary := none, audioLength := 3,
                                            metadata := none },
                                          { timestamp := "t2",
                                            transcription := "third",
                                            summary := none, audioLength := 5,
                                            metadata := none }],
                         transcription := none, summary := none,
                         audioLength := none, metadata := none } }],
    nextId := 1, time := 1 }

/-- Witness for the amended C2: two distinct items appended to the
concrete one-record store land in order and grow `entries` from 1 to 3. -/
theorem append_twice_distinct_witness :
    docEntries exStoreC2b 0 =
      some [{ timestamp := "t0", transcription := "first", summary := none,
              audioLength := 4, metadata := none },
            { timestamp := "t1", transcription := "second", summary := none,
              audioLength := 3, metadata := none },
            { timestamp := "t2", transcription := "third", summary := none,
              audioLength := 5, metadata := none }] :=
  (append_twice_distinct_adds_two "t1" "t2" 0
    { transcription := "second", summary := none, audioLength := 3,
      metadata := none }
    { transcription := "third", summary := none, audioLength := 5,
      metadata := none }
    exStoreC2 _
    [{ timestamp := "t0", transcription := "first", summary := none,
       audioLength := 4, metadata := none }]
    rfl rfl (by decide) (by decide) exStoreC2a exStoreC2b rfl rfl).1

/-! ## Claim C3 -/

/-- A concrete store holding one legacy flat record (no `entries` array),
as written by the pre-`entries` version of the service. -/
def exLegacyStore : Firestore :=
  { docs := [{ id := 7, createdAt := 0,
               data := { timestamp := "t0", entries := none,
                         transcription := some "legacy text",
                         summary := some "- old summary",
                         audioLength := some 5,
                         metadata := some [("type", "journal")] } }],
    nextId := 8, time := 1 }

/-- **C3, counterexample.** For a legacy flat record, the claim that every
store read returns it normalized fails: `getJournalEntry` and
`getJournalEntries` spread the stored document unchanged (no `entries`
array in their result, flat `transcription` field still present), so
their callers do observe the flat shape. -/
theorem legacy_flat_shape_escapes_counterexample :
    (getJournalEntry true 7 exLegacyStore).map (fun r => r.entries) = some none
    ∧ (getJournalEntry true 7 exLegacyStore).map (fun r => r.transcription)
      = some (some "legacy text")
    ∧ (getJournalEntries true exLegacyStore).map
        (fun l => l.map (fun r => r.entries)) = .ok [none] := by
  refine ⟨by rfl, by rfl, by rfl⟩

/-- **C3, amended.** A legacy flat record is normalized on read only by
`getLatestJournalEntry`, which returns it as a one-item `entries`
sequence carrying the same timestamp, transcription, summary,
audioLength and metadata (and no flat fields); `getJournalEntry` and
`getJournalEntries` return the stored flat shape unchanged — with the id
attached but the `entries` field absent — so callers of those two
operations do observe the flat shape. -/
theorem legacy_normalized_only_by_getLatest
    (st : Firestore) (fd : FireDoc) (t tr : String) (su : Option String)
    (n : Nat) (m : Option Metadata)
    (hdata : fd.data = { timestamp := t, entries := none,
                         transcription := some tr, summary := su,
                         audioLength := some n, metadata := m })
    (hlatest : latestDoc st = some fd)
    (hfind : st.docs.find? (fun x => x.id == fd.id) = some fd) :
    getLatestJournalEntry true st =
      some { id := fd.id, timestamp := t,
             entries := some [{ timestamp := t, transcription := tr,
                                summary := su, audioLength := n,
                                metadata := m }],
             transcription := none, summary := none, audioLength := none,
             metadata := none }
    ∧ getJournalEntry true fd.id st = some (spreadDoc fd)
    ∧ (spreadDoc fd).entries = none
    ∧ (spreadDoc fd).transcription = some tr := by
  refine ⟨?_, ?_, ?_, ?_⟩
  · unfold getLatestJournalEntry
    rw [if_pos rfl, hlatest]
    simp [hdata]
  · simp [getJournalEntry, hfind]
  · rw [spreadDoc, hdata]
  · rw [spreadDoc, hdata]

/-- Witness for the amended C3 on the concrete legacy store. -/
theorem legacy_normalization_witness :
    getLatestJournalEntry true exLegacyStore =
      some { id := 7, timestamp := "t0",
             entries := some [{ timestamp := "t0",
                                transcription := "legacy text",
                                summary := some "- old summary",
                                audioLength := 5,
                                metadata := some [("type", "journal")] }],
             transcription := none, summary := none, audioLength := none,
             metadata := none }
    ∧ getJournalEntry true 7 exLegacyStore =
      some { id := 7, timestamp := "t0", entries := none,
             transcription := some "legacy text",
             summary := some "- old summary", audioLength := some 5,
             metadata := some [("type", "journal")] } := by
  have h := legacy_normalized_only_by_getLatest exLegacyStore
    { id := 7, createdAt := 0,
      data := { timestamp := "t0", entries := none,
                transcription := some "legacy text",
                summary := some "- old summary", audioLength := some 5,
                metadata := some [("type", "journal")] } }
    "t0" "legacy text" (some "- old summary") 5 (some [("type", "journal")])
    rfl rfl rfl
  exact ⟨h.1, h.2.1⟩

end SerenityEcho
